import Mathlib

/-
Verification of the grid-sampling and derived-quantity core of the
datamining repository (src/weather/waves/join_all.py).

The derived per-row quantities of `main` (lines 126-145) are embedded as
scalar functions: floating-point values are modelled as rationals, missing
values (not-a-number) as `none` in `Option` where a claim depends on them,
and the Python float modulo `x % m` (for `m > 0`) as `pmod`.

The grid sampler `sample_vars_to_points` (lines 15-94) is embedded over a
dataset model: an xarray variable becomes a list of dimension names
together with a total function from multi-indices to scalar values, and a
dataset becomes dimension sizes plus coordinate and data-variable
association lists.  The scalar type of the grid model is a parameter
(a linear ordered ring) so that the statements cover the rationals and
concrete instances can be evaluated over the integers.
-/

/- Section 1: derived quantities of `main` (join_all.py lines 126-154). -/

/-- Python float modulo for a positive modulus: `x % m = x - m * floor (x / m)`,
the result lies in `[0, m)`. -/
def pmod (x m : ℚ) : ℚ := x - m * ⌊x / m⌋

/-- Relative wave angle (join_all.py lines 130-132): wave-to direction is
`(VMDR + 180) % 360`, the angular difference to course-over-ground is taken
modulo 360 with `np.abs`, and values above 180 are reflected as `360 - value`. -/
def rel_wave_angle (vmdr cog : ℚ) : ℚ :=
  let wave_to := pmod (vmdr + 180) 360
  let ang := |pmod (wave_to - cog) 360|
  if ang > 180 then 360 - ang else ang

/-- Fold into `[0,180]` as the spec words it: a value above 180 is reflected
to `360 - value`.  Used to compare `rel_wave_angle` against the spec. -/
def foldTo180 (v : ℚ) : ℚ := if v > 180 then 360 - v else v

/-- Sea-state sector (join_all.py lines 133-134): `pd.cut` of the relative
wave angle with bin edges `[-0.1, 30, 150, 180]`, which with the pandas
default builds the right-closed intervals `(-0.1,30]`, `(30,150]`,
`(150,180]`; values outside every bin get no label. -/
def sea_sector (a : ℚ) : Option String :=
  if -0.1 < a ∧ a ≤ 30 then some "following"
  else if 30 < a ∧ a ≤ 150 then some "beam"
  else if 150 < a ∧ a ≤ 180 then some "head"
  else none

/-- Comparison `VHM0 >= 3.0` of join_all.py line 128: a missing value
(not-a-number) compares false, as for IEEE floats. -/
def geThree (v : Option ℚ) : Bool :=
  match v with
  | none => false
  | some x => decide (3 ≤ x)

/-- Stormy flag of one row (join_all.py line 128): `(VHM0 >= 3.0).astype(int)`. -/
def stormy_flag (v : Option ℚ) : ℤ := if geThree v then 1 else 0

/-- Stormy column: the flag computed for every row. -/
def stormy_col (col : List (Option ℚ)) : List ℤ := col.map stormy_flag

/- Section 2: current components of `main` (join_all.py lines 137-145),
over the reals because they use trigonometric functions. -/

noncomputable section

/-- Degree-to-radian conversion `np.deg2rad`. -/
def deg2rad (x : ℝ) : ℝ := x * (Real.pi / 180)

/-- Along-track current in knots (join_all.py lines 138-142): the current
vector is projected on the heading unit vector `(sin theta, cos theta)` and
converted from meters per second to knots. -/
def along_current_kn (uo vo cog : ℝ) : ℝ :=
  let theta := deg2rad cog
  let hx := Real.sin theta
  let hy := Real.cos theta
  let along_ms := uo * hx + vo * hy
  along_ms * 1.94384

/-- Cross-track current in knots (join_all.py lines 139-143). -/
def cross_current_kn (uo vo cog : ℝ) : ℝ :=
  let theta := deg2rad cog
  let hx := Real.sin theta
  let hy := Real.cos theta
  let cross_ms := -uo * hy + vo * hx
  cross_ms * 1.94384

/-- Estimated speed through water (join_all.py line 145): speed over ground
minus the along-track current in knots. -/
def stw_est_kn (sog uo vo cog : ℝ) : ℝ := sog - along_current_kn uo vo cog

end

/- Helper lemmas about `pmod`. -/

theorem pmod_nonneg (x m : ℚ) (hm : 0 < m) : 0 ≤ pmod x m := by
  unfold pmod
  have h1 : (⌊x / m⌋ : ℚ) ≤ x / m := Int.floor_le (x / m)
  have h2 : m * (⌊x / m⌋ : ℚ) ≤ m * (x / m) :=
    mul_le_mul_of_nonneg_left h1 (le_of_lt hm)
  have h3 : m * (x / m) = x := by
    field_simp
  linarith

/- Claim theorems for the derived quantities. -/

/-- C3: for finite wave-from direction and course-over-ground, the relative
wave angle equals the fold into `[0,180]` of
`((VMDR + 180) mod 360 - cog) mod 360`, where a value above 180 is
reflected to `360 - value`; a pre-fold relative angle of exactly 180 maps
to 180 (inputs VMDR = 0, cog = 0), 200 maps to 160 (VMDR = 20, cog = 0),
and 0 maps to 0 (VMDR = 180, cog = 0). -/
theorem rel_wave_angle_spec (vmdr cog : ℚ) :
    rel_wave_angle vmdr cog = foldTo180 (pmod (pmod (vmdr + 180) 360 - cog) 360) ∧
    rel_wave_angle 0 0 = 180 ∧ rel_wave_angle 20 0 = 160 ∧ rel_wave_angle 180 0 = 0 := by
  refine ⟨?_, ?_, ?_, ?_⟩
  · simp only [rel_wave_angle, foldTo180]
    have h := pmod_nonneg (pmod (vmdr + 180) 360 - cog) 360 (by norm_num)
    rw [abs_of_nonneg h]
  · norm_num [rel_wave_angle, pmod]
  · norm_num [rel_wave_angle, pmod]
  · norm_num [rel_wave_angle, pmod]

/-- C2 counterexample: the claim says the boundary value 30 maps to `beam`
and 150 maps to `head`; the code's `pd.cut` bins are right-closed, so 30
maps to `following` and 150 maps to `beam`. -/
theorem sea_sector_boundary_cex :
    sea_sector 30 = some "following" ∧ sea_sector 30 ≠ some "beam" ∧
    sea_sector 150 = some "beam" ∧ sea_sector 150 ≠ some "head" := by
  have h30 : sea_sector 30 = some "following" := by norm_num [sea_sector]
  have h150 : sea_sector 150 = some "beam" := by norm_num [sea_sector]
  refine ⟨h30, ?_, h150, ?_⟩
  · rw [h30]; simp
  · rw [h150]; simp

/-- C2 amended: for relative wave angle `a` in `[0,180]`, the sector is
`following` exactly on `[0,30]`, `beam` exactly on `(30,150]`, and `head`
exactly on `(150,180]`; the boundary 30 maps to `following` and 150 to
`beam` (right-closed bins). -/
theorem sea_sector_buckets (a : ℚ) (h0 : 0 ≤ a) (h180 : a ≤ 180) :
    (sea_sector a = some "following" ↔ a ≤ 30) ∧
    (sea_sector a = some "beam" ↔ 30 < a ∧ a ≤ 150) ∧
    (sea_sector a = some "head" ↔ 150 < a) := by
  have hlow : (-0.1 : ℚ) < a := lt_of_lt_of_le (by norm_num) h0
  unfold sea_sector
  split_ifs with h1 h2 h3
  · refine ⟨⟨fun _ => h1.2, fun _ => rfl⟩, ?_, ?_⟩
    · simp only [Option.some.injEq]
      constructor
      · intro h; exact absurd h (by decide)
      · rintro ⟨hgt, _⟩; exact absurd h1.2 (not_le.mpr hgt)
    · simp only [Option.some.injEq]
      constructor
      · intro h; exact absurd h (by decide)
      · intro hgt; linarith [h1.2]
  · refine ⟨?_, ⟨fun _ => h2, fun _ => rfl⟩, ?_⟩
    · simp only [Option.some.injEq]
      constructor
      · intro h; exact absurd h (by decide)
      · intro hle; exact absurd (And.intro hlow hle) h1
    · simp only [Option.some.injEq]
      constructor
      · intro h; exact absurd h (by decide)
      · intro hgt; linarith [h2.2]
  · refine ⟨?_, ?_, ⟨fun _ => h3.1, fun _ => rfl⟩⟩
    · simp only [Option.some.injEq]
      constructor
      · intro h; exact absurd h (by decide)
      · intro hle; exact absurd (And.intro hlow hle) h1
    · simp only [Option.some.injEq]
      constructor
      · intro h; exact absurd h (by decide)
      · rintro ⟨hgt, hle⟩; exact absurd (And.intro hgt hle) h2
  · exfalso
    rcases le_or_lt a 30 with h | h
    · exact h1 ⟨hlow, h⟩
    · rcases le_or_lt a 150 with h' | h'
      · exact h2 ⟨h, h'⟩
      · exact h3 ⟨h', h180⟩

/-- C2 witness: at the interior value 90 the theorem applies and yields the
`beam` bucket. -/
theorem sea_sector_buckets_witness :
    sea_sector 90 = some "beam" ↔ 30 < (90 : ℚ) ∧ (90 : ℚ) ≤ 150 :=
  (sea_sector_buckets 90 (by norm_num) (by norm_num)).2.1

/-- C10: whenever the significant-wave-height column is present the stormy
flag is produced for every row (the column has the same length), every flag
is 0 or 1, and a missing (not-a-number) wave height yields flag 0 because
the comparison `VHM0 >= 3.0` is false for not-a-number. -/
theorem stormy_flag_total (col : List (Option ℚ)) :
    (stormy_col col).length = col.length ∧
    (∀ s ∈ stormy_col col, s = 0 ∨ s = 1) ∧
    stormy_flag none = 0 := by
  refine ⟨List.length_map col stormy_flag, ?_, rfl⟩
  intro s hs
  rcases List.mem_map.mp hs with ⟨v, _, hv⟩
  subst hv
  unfold stormy_flag
  split_ifs <;> simp

/-- C10 witness: on the concrete column `[some 4, none]` the flag column has
length 2 and its entry 1 (from the present value 4) is 0 or 1. -/
theorem stormy_flag_total_witness :
    (stormy_col [some (4 : ℚ), none]).length = [some (4 : ℚ), none].length ∧
    ((1 : ℤ) = 0 ∨ (1 : ℤ) = 1) :=
  ⟨(stormy_flag_total [some 4, none]).1,
   (stormy_flag_total [some 4, none]).2.1 1 (by
     show (1 : ℤ) ∈ stormy_col [some (4 : ℚ), none]
     norm_num [stormy_col, stormy_flag, geThree])⟩

/-- C8: the along-track current in knots is
`(uo * sin theta + vo * cos theta) * 1.94384` with theta the
course-over-ground in radians, the cross-track current in knots is
`(-(uo * cos theta) + vo * sin theta) * 1.94384`, estimated
speed-through-water is speed-over-ground minus the along-track component,
and an along-track current of 1.0 m/s (inputs uo = 0, vo = 1, cog = 0)
converts to 1.94384 kn. -/
theorem current_components_spec (uo vo cog sog : ℝ) :
    along_current_kn uo vo cog
      = (uo * Real.sin (deg2rad cog) + vo * Real.cos (deg2rad cog)) * 1.94384 ∧
    cross_current_kn uo vo cog
      = (-(uo * Real.cos (deg2rad cog)) + vo * Real.sin (deg2rad cog)) * 1.94384 ∧
    stw_est_kn sog uo vo cog = sog - along_current_kn uo vo cog ∧
    along_current_kn 0 1 0 = 1.94384 := by
  refine ⟨rfl, by unfold cross_current_kn; ring, rfl, ?_⟩
  unfold along_current_kn deg2rad
  simp [Real.sin_zero, Real.cos_zero]

/- Section 3: the grid sampler `sample_vars_to_points` (join_all.py lines
15-94).  An xarray variable is a list of dimension names plus a total
function from multi-indices to values; a dataset is dimension sizes plus
coordinate and data-variable association lists.  `ds.variables` of xarray
is the union of coordinates and data variables. -/

/-- Named array of a dataset: dimension names in order, and the value at
each multi-index (one index per dimension). -/
structure Var (α : Type) where
  dims : List String
  val  : List Nat → α

/-- Gridded dataset: dimension sizes, coordinate arrays and data-variable
arrays, both looked up by name. -/
structure Dataset (α : Type) where
  dims : List (String × Nat)
  coords : List (String × Var α)
  dataVars : List (String × Var α)

/-- Query point of the AIS series: latitude, longitude and timestamp
(the timestamp on a numeric timeline). -/
structure Point (α : Type) where
  lat : α
  lon : α
  ts  : α

/-- Errors of `sample_vars_to_points`, one per `SystemExit` site: missing
lat/lon names (line 30), non-separable 2-D grid (line 43), no 1-D lat/lon
coordinate (line 58). -/
inductive SampleErr
  | missingCoord
  | nonSeparable
  | no1dLatLon
deriving DecidableEq

/-- Source argument of `sample_vars_to_points`: the three benign path cases
of line 21 (`not nc_path`, the sentinel, a nonexistent path) or an opened
dataset. -/
inductive Source (α : Type)
  | emptyPath : Source α
  | dash : Source α
  | missingFile : Source α
  | file (ds : Dataset α) : Source α

variable {α : Type} [LinearOrderedRing α]

/-- Dimension names of a dataset. -/
def dimNames (ds : Dataset α) : List String := ds.dims.map Prod.fst

/-- Size of a named dimension (0 when absent). -/
def dimSize (ds : Dataset α) (d : String) : Nat := (ds.dims.lookup d).getD 0

/-- Array access `ds[n]`: coordinates take precedence over data variables. -/
def dsGet (ds : Dataset α) (n : String) : Option (Var α) :=
  (ds.coords.lookup n).or (ds.dataVars.lookup n)

/-- Membership test `n in ds.variables`. -/
def memVariables (ds : Dataset α) (n : String) : Bool :=
  (ds.coords.lookup n).isSome || (ds.dataVars.lookup n).isSome

/-- Membership test `n in ds.coords`. -/
def memCoords (ds : Dataset α) (n : String) : Bool :=
  (ds.coords.lookup n).isSome

/-- Value of `getattr(ds[n], "ndim", 1)`. -/
def ndimOf (ds : Dataset α) (n : String) : Nat :=
  match dsGet ds n with
  | some v => v.dims.length
  | none => 1

/-- Placeholder array used where the code would already have failed. -/
def defaultVar : Var α := ⟨[], fun _ => 0⟩

/-- Latitude name candidates of line 27. -/
def latCandidates : List String := ["latitude", "lat", "nav_lat"]

/-- Longitude name candidates of line 28. -/
def lonCandidates : List String := ["longitude", "lon", "nav_lon"]

/-- 1-D latitude candidates of line 55. -/
def lat1dCandidates : List String := ["latitude", "lat", "y"]

/-- 1-D longitude candidates of line 56. -/
def lon1dCandidates : List String := ["longitude", "lon", "x"]

/-- Time dimension candidates of line 63. -/
def timeCandidates : List String := ["time", "valid_time", "step"]

/-- Name search of lines 27-28: first candidate present among the
variables or coordinates. -/
def findName (ds : Dataset α) (cands : List String) : Option String :=
  cands.find? (fun n => memVariables ds n || memCoords ds n)

/-- Entry of a 2-D array. -/
def val2 (v : Var α) (i j : Nat) : α := v.val [i, j]

/-- Shape of a 2-D array, from the sizes of its two dimensions. -/
def shape2 (ds : Dataset α) (v : Var α) : Nat × Nat :=
  match v.dims with
  | [d0, d1] => (dimSize ds d0, dimSize ds d1)
  | _ => (0, 0)

/-- Check `np.allclose(lat2d, lat1d[:, None])` of line 39 with exact
arithmetic: the 2-D latitude is constant along its column dimension. -/
def sepLatOK (ds : Dataset α) (lat : Var α) : Bool :=
  let s := shape2 ds lat
  (List.range s.1).all fun i =>
    (List.range s.2).all fun j => decide (val2 lat i j = val2 lat i 0)

/-- Check `np.allclose(lon2d, lon1d[None, :])` of line 39: the 2-D
longitude is constant along its row dimension. -/
def sepLonOK (ds : Dataset α) (lon : Var α) : Bool :=
  let s := shape2 ds lon
  (List.range s.1).all fun i =>
    (List.range s.2).all fun j => decide (val2 lon i j = val2 lon 0 j)

/-- Coordinate assignment `ds.assign_coords`: adds or replaces one named
coordinate. -/
def setCoord (ds : Dataset α) (n : String) (v : Var α) : Dataset α :=
  { ds with coords := (n, v) :: ds.coords.filter (fun p => p.1 != n) }

/-- Synthetic 1-D `y` coordinate `lat2d[:, 0]` of lines 37 and 40. -/
def firstColCoord (lat : Var α) : Var α :=
  ⟨["y"], fun idx => lat.val [idx.headD 0, 0]⟩

/-- Synthetic 1-D `x` coordinate `lon2d[0, :]` of lines 38 and 40. -/
def firstRowCoord (lon : Var α) : Var α :=
  ⟨["x"], fun idx => lon.val [0, idx.headD 0]⟩

/-- Collapse of 2-D lat/lon (lines 33-46): attempted only when `ds[lat_name]`
is 2-D and both `y` and `x` are dimensions of the dataset; a failing
separability check raises the non-separable error. -/
def collapse2d (ds : Dataset α) (latName lonName : String) :
    Except SampleErr (Dataset α × Option String × Option String) :=
  if ndimOf ds latName == 2 && (dimNames ds).contains "y" && (dimNames ds).contains "x" then
    let lat := (dsGet ds latName).getD defaultVar
    let lon := (dsGet ds lonName).getD defaultVar
    if sepLatOK ds lat && sepLonOK ds lon then
      .ok (setCoord (setCoord ds "y" (firstColCoord lat)) "x" (firstRowCoord lon),
           some "y", some "x")
    else .error .nonSeparable
  else .ok (ds, none, none)

/-- Acceptance test of `pick1d` (lines 49-53) for one candidate name. -/
def pick1dOK (ds : Dataset α) (c : String) : Bool :=
  (memCoords ds c || (ds.dims.lookup c).isSome) && ndimOf ds c == 1

/-- Search `pick1d` of lines 49-53: first candidate that is a 1-D
coordinate or dimension. -/
def pick1d (ds : Dataset α) (cands : List String) : Option String :=
  cands.find? (pick1dOK ds)

/-- Time-dimension search of lines 62-66. -/
def findTdim (ds : Dataset α) : Option String :=
  timeCandidates.find? (fun c => (ds.dims.lookup c).isSome && ndimOf ds c == 1)

/-- Insertion of a fixed index at position `k` of a multi-index. -/
def idxInsert (k i : Nat) (idx : List Nat) : List Nat := idx.take k ++ i :: idx.drop k

/-- Selection of one index along a named dimension of an array
(`isel`): the dimension disappears and its index is fixed. -/
def Var.iselDim (v : Var α) (d : String) (i : Nat) : Var α :=
  match v.dims.findIdx? (fun x => x == d) with
  | none => v
  | some k => ⟨v.dims.eraseIdx k, fun idx => v.val (idxInsert k i idx)⟩

/-- Selection `ds.isel` of line 70 applied to the whole dataset: the
dimension is dropped from the sizes and fixed in every array; a coordinate
over that dimension becomes a scalar (0-D) coordinate, as in xarray. -/
def Dataset.iselAll (ds : Dataset α) (d : String) (i : Nat) : Dataset α :=
  { dims := ds.dims.filter (fun p => p.1 != d),
    coords := ds.coords.map (fun p => (p.1, p.2.iselDim d i)),
    dataVars := ds.dataVars.map (fun p => (p.1, p.2.iselDim d i)) }

/-- Time handling of lines 62-71: a time dimension of length one is
collapsed by selecting index 0 and no time selection is performed. -/
def timeHandle (ds : Dataset α) : Dataset α × Option String :=
  match findTdim ds with
  | none => (ds, none)
  | some t => if dimSize ds t == 1 then (ds.iselAll t 0, none) else (ds, some t)

/-- Dimension a named coordinate is indexed by (its first dimension). -/
def coordDim (ds : Dataset α) (c : String) : String :=
  match ds.coords.lookup c with
  | some v => v.dims.headD ""
  | none => c

/-- Values of a 1-D coordinate, in index order. -/
def coordValues (ds : Dataset α) (c : String) : List α :=
  match ds.coords.lookup c with
  | some v => (List.range (dimSize ds (v.dims.headD ""))).map (fun i => v.val [i])
  | none => []

/-- Insertion step of the ascending argsort. -/
def insertAsc (vs : List α) (i : Nat) (l : List Nat) : List Nat :=
  match l with
  | [] => [i]
  | j :: rest => if vs.getD i 0 < vs.getD j 0 then i :: j :: rest else j :: insertAsc vs i rest

/-- Ascending argsort of a value list: the permutation used by `sortby`. -/
def argsort (vs : List α) : List Nat :=
  (List.range vs.length).foldr (insertAsc vs) []

/-- Rewrite of the entry at position `k` of a multi-index. -/
def mapIdxAt (k : Nat) (f : Nat → Nat) (idx : List Nat) : List Nat :=
  idx.take k ++ f (idx.getD k 0) :: idx.drop (k + 1)

/-- Reordering of an array along a named dimension by a permutation. -/
def Var.permuteDim (v : Var α) (d : String) (perm : List Nat) : Var α :=
  match v.dims.findIdx? (fun x => x == d) with
  | none => v
  | some k => ⟨v.dims, fun idx => v.val (mapIdxAt k (fun i => perm.getD i 0) idx)⟩

/-- Sort `ds.sortby(c)` of lines 79-81, for a 1-D coordinate `c`: every
array of the dataset is reordered along the coordinate's dimension so that
the coordinate values come ascending. -/
def Dataset.sortby (ds : Dataset α) (c : String) : Dataset α :=
  match ds.coords.lookup c with
  | none => ds
  | some cv =>
    if cv.dims.length == 1 then
      let d := cv.dims.headD ""
      let perm := argsort (coordValues ds c)
      { ds with
        coords := ds.coords.map (fun p => (p.1, p.2.permuteDim d perm)),
        dataVars := ds.dataVars.map (fun p => (p.1, p.2.permuteDim d perm)) }
    else ds

/-- Sort loop of lines 79-81: time axis first when present, then the
latitude and longitude axes. -/
def sortAxes (ds : Dataset α) (latn lonn : String) (tdim : Option String) : Dataset α :=
  ((match tdim with | some t => [t] | none => []) ++ [latn, lonn]).foldl Dataset.sortby ds

/-- Index of the nearest value of a 1-D coordinate to a query value
(`method="nearest"`); ties keep the earlier index. -/
def nearestIdx (vs : List α) (q : α) : Nat :=
  (List.range vs.length).foldl
    (fun best i => if |vs.getD i 0 - q| < |vs.getD best 0 - q| then i else best) 0

/-- Nearest-neighbor evaluation of one variable at one query point
(lines 84-93): the nearest index is found independently on the latitude,
longitude and (when active) time coordinate, and the variable is read at
those indices. -/
def pointEval (ds : Dataset α) (latn lonn : String) (tdim : Option String)
    (v : Var α) (p : Point α) : α :=
  let iLat := nearestIdx (coordValues ds latn) p.lat
  let iLon := nearestIdx (coordValues ds lonn) p.lon
  let dlat := coordDim ds latn
  let dlon := coordDim ds lonn
  let pickIdx : String → Nat := fun d =>
    if d == dlat then iLat
    else if d == dlon then iLon
    else
      match tdim with
      | some t => if d == coordDim ds t then nearestIdx (coordValues ds t) p.ts else 0
      | none => 0
  v.val (v.dims.map pickIdx)

/-- Axis resolution of lines 27-71: lat/lon name search, 2-D collapse,
1-D coordinate search, then time handling. -/
def resolveAxes (ds : Dataset α) :
    Except SampleErr (Dataset α × String × String × Option String) :=
  match findName ds latCandidates, findName ds lonCandidates with
  | some latName, some lonName =>
    match collapse2d ds latName lonName with
    | .error e => .error e
    | .ok (ds1, latn0, lonn0) =>
      let latn? := match latn0 with | some l => some l | none => pick1d ds1 lat1dCandidates
      let lonn? := match lonn0 with | some l => some l | none => pick1d ds1 lon1dCandidates
      match latn?, lonn? with
      | some latn, some lonn =>
        let th := timeHandle ds1
        .ok (th.1, latn, lonn, th.2)
      | _, _ => .error .no1dLatLon
  | _, _ => .error .missingCoord

/-- Sampling steps after axis resolution (lines 73-94): availability
filter, early empty return, sort, nearest-neighbor selection per point. -/
def finishSample (ds1 : Dataset α) (latn lonn : String) (tdim : Option String)
    (pts : List (Point α)) (wanted : List String) : List (String × List α) :=
  let avail := wanted.filter (fun v => memVariables ds1 v)
  if avail.isEmpty then []
  else
    let ds2 := sortAxes ds1 latn lonn tdim
    avail.map fun v =>
      (v, pts.map (pointEval ds2 latn lonn tdim ((dsGet ds2 v).getD defaultVar)))

/-- Sampling of an opened dataset at the query points. -/
def sampleDs (ds : Dataset α) (pts : List (Point α)) (wanted : List String) :
    Except SampleErr (List (String × List α)) :=
  match resolveAxes ds with
  | .error e => .error e
  | .ok (ds1, latn, lonn, tdim) => .ok (finishSample ds1 latn lonn tdim pts wanted)

/-- Embedding of `sample_vars_to_points` (lines 15-94): the benign source
cases return the empty mapping before anything else happens. -/
def sample_vars_to_points (src : Source α) (pts : List (Point α)) (wanted : List String) :
    Except SampleErr (List (String × List α)) :=
  match src with
  | .emptyPath => .ok []
  | .dash => .ok []
  | .missingFile => .ok []
  | .file ds => sampleDs ds pts wanted

/-- Removal of one named coordinate from a dataset. -/
def dropCoord (ds : Dataset α) (n : String) : Dataset α :=
  { ds with coords := ds.coords.filter (fun p => p.1 != n) }

/-- Field with a time dimension removed entirely, following the spec words
of the singleton-time-collapse property: the single slice along the
dimension is kept, and the dimension and its coordinate disappear. -/
def removeTimeDim (ds : Dataset α) (t : String) : Dataset α :=
  dropCoord (ds.iselAll t 0) t

/-- Separability of a field's 2-D lat/lon as the spec words it: the 2-D
latitude array is constant along the column dimension and the 2-D
longitude array is constant along the row dimension. -/
def mathSeparable (ds : Dataset α) : Bool :=
  let latName := (findName ds latCandidates).getD ""
  let lonName := (findName ds lonCandidates).getD ""
  sepLatOK ds ((dsGet ds latName).getD defaultVar) &&
    sepLonOK ds ((dsGet ds lonName).getD defaultVar)

/- Helper lemmas for the sampler claims. -/

theorem getD_map_lt {β γ : Type} (f : β → γ) (l : List β) (i : Nat) (d : β) (d' : γ)
    (h : i < l.length) : (l.map f).getD i d' = f (l.getD i d) := by
  induction l generalizing i with
  | nil => simp at h
  | cons a t ih =>
    cases i with
    | zero => simp
    | succ n =>
      simp only [List.map_cons, List.getD_cons_succ]
      exact ih n (by simpa using h)

/-- C7: a field in which no candidate latitude name (or no candidate
longitude name) is present among the variables or coordinates makes
sampling fail with the missing-coordinate error. -/
theorem missing_coord_error (ds : Dataset α) (pts : List (Point α)) (wanted : List String)
    (h : (∀ n ∈ latCandidates, memVariables ds n = false ∧ memCoords ds n = false) ∨
         (∀ n ∈ lonCandidates, memVariables ds n = false ∧ memCoords ds n = false)) :
    sample_vars_to_points (Source.file ds) pts wanted = .error .missingCoord := by
  have key : findName ds latCandidates = none ∨ findName ds lonCandidates = none := by
    rcases h with h | h
    · exact Or.inl (List.find?_eq_none.mpr fun n hn => by simp [(h n hn).1, (h n hn).2])
    · exact Or.inr (List.find?_eq_none.mpr fun n hn => by simp [(h n hn).1, (h n hn).2])
  simp only [sample_vars_to_points, sampleDs, resolveAxes]
  rcases key with k | k
  · rw [k]
  · cases hl : findName ds latCandidates with
    | none => rfl
    | some latName => rw [k]

/-- C4 amended: a field whose resolved latitude coordinate is 2-D, whose
dimensions include both `y` and `x`, and which fails the separability
check, makes sampling fail with the non-separable-grid error. -/
theorem nonseparable_rejected (ds : Dataset α) (pts : List (Point α)) (wanted : List String)
    (ln lo : String)
    (h1 : findName ds latCandidates = some ln)
    (h2 : findName ds lonCandidates = some lo)
    (h3 : ndimOf ds ln = 2)
    (hy : "y" ∈ dimNames ds) (hx : "x" ∈ dimNames ds)
    (hsep : (sepLatOK ds ((dsGet ds ln).getD defaultVar) &&
             sepLonOK ds ((dsGet ds lo).getD defaultVar)) = false) :
    sample_vars_to_points (Source.file ds) pts wanted = .error .nonSeparable := by
  have hc : collapse2d ds ln lo = .error .nonSeparable := by
    simp [collapse2d, h3, List.contains, List.elem_eq_true_of_mem hy,
      List.elem_eq_true_of_mem hx, hsep]
    exact ⟨hy, hx⟩
  simp only [sample_vars_to_points, sampleDs, resolveAxes, h1, h2, hc]

/-- C9: when the resolved latitude coordinate is 2-D but the dataset does
not have both a `y` and an `x` dimension, the collapse is never attempted
and sampling fails with the no-1-D-lat/lon error regardless of whether the
grid is separable. -/
theorem collapse_requires_yx (ds : Dataset α) (pts : List (Point α)) (wanted : List String)
    (ln lo : String)
    (h1 : findName ds latCandidates = some ln)
    (h2 : findName ds lonCandidates = some lo)
    (h3 : ndimOf ds ln = 2) (h4 : ndimOf ds lo = 2)
    (hyx : ¬("y" ∈ dimNames ds ∧ "x" ∈ dimNames ds))
    (hp : ∀ c ∈ lat1dCandidates, pick1dOK ds c = false) :
    sample_vars_to_points (Source.file ds) pts wanted = .error .no1dLatLon := by
  have hno : collapse2d ds ln lo = .ok (ds, none, none) := by
    unfold collapse2d
    rw [if_neg]
    intro hcond
    have hy : (dimNames ds).contains "y" = true := by
      rcases Bool.and_eq_true_iff.mp hcond with ⟨hab, _⟩
      exact (Bool.and_eq_true_iff.mp hab).2
    have hx : (dimNames ds).contains "x" = true := (Bool.and_eq_true_iff.mp hcond).2
    exact hyx ⟨List.mem_of_elem_eq_true hy, List.mem_of_elem_eq_true hx⟩
  have hpick : pick1d ds lat1dCandidates = none :=
    List.find?_eq_none.mpr fun c hc => by simp [hp c hc]
  simp only [sample_vars_to_points, sampleDs, resolveAxes, h1, h2, hno, hpick]

/-- C6 amended: sampling returns the empty mapping (raising no error)
exactly when the source is one of the three benign path cases, or when
axis resolution succeeds and no requested variable is present in the
(possibly collapsed) field. -/
theorem empty_result_iff (src : Source α) (pts : List (Point α)) (wanted : List String) :
    sample_vars_to_points src pts wanted = .ok [] ↔
      src = Source.emptyPath ∨ src = Source.dash ∨ src = Source.missingFile ∨
      ∃ ds axes, src = Source.file ds ∧ resolveAxes ds = .ok axes ∧
        wanted.filter (fun v => memVariables axes.1 v) = [] := by
  cases src with
  | emptyPath => simp [sample_vars_to_points]
  | dash => simp [sample_vars_to_points]
  | missingFile => simp [sample_vars_to_points]
  | file ds =>
    simp only [sample_vars_to_points]
    constructor
    · intro h
      cases hr : resolveAxes ds with
      | error e =>
        rw [sampleDs, hr] at h
        exact absurd h (by simp)
      | ok axes =>
        obtain ⟨ds1, latn, lonn, tdim⟩ := axes
        refine Or.inr (Or.inr (Or.inr ⟨ds, (ds1, latn, lonn, tdim), rfl, hr, ?_⟩))
        rw [sampleDs, hr] at h
        have hfin : finishSample ds1 latn lonn tdim pts wanted = [] := by
          injection h
        by_cases he : (wanted.filter (fun v => memVariables ds1 v)) = []
        · exact he
        · exfalso
          rw [finishSample, if_neg (by simpa using he)] at hfin
          exact he (List.map_eq_nil_iff.mp hfin)
    · rintro (h | h | h | ⟨ds', axes, heq, hr, hf⟩)
      · exact absurd h (by simp)
      · exact absurd h (by simp)
      · exact absurd h (by simp)
      · obtain ⟨ds1, latn, lonn, tdim⟩ := axes
        have hds : ds = ds' := by injection heq
        subst hds
        rw [sampleDs, hr]
        simp only [finishSample]
        rw [if_pos (by simpa using hf)]

/-- C1: whenever sampling succeeds, every variable array of the result has
length exactly the number of query points, and the result is positionally
aligned: for each index `i`, the `i`-th entry of every result array is
exactly what sampling the single `i`-th point alone yields, so no point is
dropped or reordered. -/
theorem sample_alignment (src : Source α) (pts : List (Point α)) (wanted : List String)
    (res : List (String × List α))
    (h : sample_vars_to_points src pts wanted = .ok res) :
    (∀ pr ∈ res, pr.2.length = pts.length) ∧
    ∀ i, i < pts.length →
      sample_vars_to_points src [pts.getD i ⟨0, 0, 0⟩] wanted =
        .ok (res.map fun pr => (pr.1, [pr.2.getD i 0])) := by
  have benign : ∀ r : List (String × List α), r = [] →
      (∀ pr ∈ r, pr.2.length = pts.length) ∧
      ∀ i, i < pts.length → (Except.ok r : Except SampleErr _) =
        .ok (r.map fun pr => (pr.1, [pr.2.getD i 0])) := by
    rintro r rfl
    exact ⟨fun pr hpr => absurd hpr (List.not_mem_nil pr), fun i _ => rfl⟩
  cases src with
  | emptyPath =>
    have hres : res = [] := by injection h; simp_all
    subst hres
    exact ⟨(benign [] rfl).1, fun i hi => (benign [] rfl).2 i hi⟩
  | dash =>
    have hres : res = [] := by injection h; simp_all
    subst hres
    exact ⟨(benign [] rfl).1, fun i hi => (benign [] rfl).2 i hi⟩
  | missingFile =>
    have hres : res = [] := by injection h; simp_all
    subst hres
    exact ⟨(benign [] rfl).1, fun i hi => (benign [] rfl).2 i hi⟩
  | file ds =>
    cases hr : resolveAxes ds with
    | error e =>
      rw [sample_vars_to_points, sampleDs, hr] at h
      exact absurd h (by simp)
    | ok axes =>
      obtain ⟨ds1, latn, lonn, tdim⟩ := axes
      rw [sample_vars_to_points, sampleDs, hr] at h
      have hres : res = finishSample ds1 latn lonn tdim pts wanted := by
        injection h; simp_all
      subst hres
      by_cases he : (wanted.filter (fun v => memVariables ds1 v)).isEmpty = true
      · have hnil : finishSample ds1 latn lonn tdim pts wanted = [] := by
          rw [finishSample, if_pos he]
        constructor
        · rw [hnil]; intro pr hpr; exact absurd hpr (List.not_mem_nil pr)
        · intro i hi
          simp only [sample_vars_to_points, sampleDs, hr, hnil]
          rw [show finishSample ds1 latn lonn tdim [pts.getD i ⟨0, 0, 0⟩] wanted = [] by
            rw [finishSample, if_pos he]]
          rfl
      · have heq : finishSample ds1 latn lonn tdim pts wanted =
            (wanted.filter (fun v => memVariables ds1 v)).map fun v =>
              (v, pts.map (pointEval (sortAxes ds1 latn lonn tdim) latn lonn tdim
                ((dsGet (sortAxes ds1 latn lonn tdim) v).getD defaultVar))) := by
          rw [finishSample, if_neg he]
        rw [heq]
        constructor
        · intro pr hpr
          obtain ⟨v, hv, rfl⟩ := List.mem_map.mp hpr
          exact List.length_map pts _
        · intro i hi
          simp only [sample_vars_to_points, sampleDs, hr]
          rw [show finishSample ds1 latn lonn tdim [pts.getD i ⟨0, 0, 0⟩] wanted =
            (wanted.filter (fun v => memVariables ds1 v)).map fun v =>
              (v, [pointEval (sortAxes ds1 latn lonn tdim) latn lonn tdim
                ((dsGet (sortAxes ds1 latn lonn tdim) v).getD defaultVar)
                (pts.getD i ⟨0, 0, 0⟩)]) by
            rw [finishSample, if_neg he]; rfl]
          rw [List.map_map]
          refine congrArg Except.ok (List.map_congr_left ?_).symm
          intro v hv
          simp only [Function.comp]
          refine congrArg (fun l => (v, l)) ?_
          rw [getD_map_lt _ pts i ⟨0, 0, 0⟩ 0 hi]

/- Concrete fields over the integers used by witnesses and counterexamples. -/

/-- 1-D axis array: values listed in index order. -/
def axis1 (d : String) (vals : List ℤ) : Var ℤ :=
  ⟨[d], fun l => vals.getD (l.getD 0 0) 0⟩

/-- 2-D grid array over two named dimensions: values listed row by row. -/
def grid2 (d0 d1 : String) (rows : List (List ℤ)) : Var ℤ :=
  ⟨[d0, d1], fun l => (rows.getD (l.getD 0 0) []).getD (l.getD 1 0) 0⟩

/-- Regular field with 1-D `latitude`/`longitude` coordinates and one data
variable `VHM0` with value `100 * i + j` at grid node `(i, j)`. -/
def flatField : Dataset ℤ :=
  { dims := [("latitude", 2), ("longitude", 2)],
    coords := [("latitude", axis1 "latitude" [0, 10]),
               ("longitude", axis1 "longitude" [0, 10])],
    dataVars := [("VHM0", grid2 "latitude" "longitude" [[0, 1], [100, 101]])] }

/-- Field with 2-D lat/lon over dimensions named `r` and `c` (not `y`/`x`)
whose latitude grid is not constant along the column dimension: it fails
the mathematical separability check. -/
def rcNonSepField : Dataset ℤ :=
  { dims := [("r", 2), ("c", 2)],
    coords := [("latitude", grid2 "r" "c" [[0, 5], [1, 1]]),
               ("longitude", grid2 "r" "c" [[0, 10], [0, 10]])],
    dataVars := [("VHM0", grid2 "r" "c" [[0, 1], [2, 3]])] }

/-- Field with 2-D lat/lon over dimensions named `r` and `c` that is
mathematically separable. -/
def rcSepField : Dataset ℤ :=
  { dims := [("r", 2), ("c", 2)],
    coords := [("latitude", grid2 "r" "c" [[0, 0], [1, 1]]),
               ("longitude", grid2 "r" "c" [[0, 10], [0, 10]])],
    dataVars := [("VHM0", grid2 "r" "c" [[0, 1], [2, 3]])] }

/-- Field with 2-D lat/lon over dimensions `y` and `x` whose latitude grid
fails the separability check. -/
def yxNonSepField : Dataset ℤ :=
  { dims := [("y", 2), ("x", 2)],
    coords := [("latitude", grid2 "y" "x" [[0, 5], [1, 1]]),
               ("longitude", grid2 "y" "x" [[0, 10], [0, 10]])],
    dataVars := [("VHM0", grid2 "y" "x" [[0, 1], [2, 3]])] }

/-- Field carrying only a longitude coordinate: every latitude candidate
name is absent. -/
def lonOnlyField : Dataset ℤ :=
  { dims := [("longitude", 2)],
    coords := [("longitude", axis1 "longitude" [0, 10])],
    dataVars := [("VHM0", axis1 "longitude" [7, 8])] }

/-- Field with no coordinates at all and one unrelated data variable. -/
def bareField : Dataset ℤ :=
  { dims := [("d", 1)],
    coords := [],
    dataVars := [("foo", axis1 "d" [0])] }

/-- C1 witness: sampling two integer points against `flatField` succeeds
with arrays of length 2, and each single point sampled alone yields the
corresponding column of the batch result. -/
theorem sample_alignment_witness :
    (∀ pr ∈ [("VHM0", [(1 : ℤ), 100])], pr.2.length = 2) ∧
    ∀ i, i < 2 →
      sample_vars_to_points (Source.file flatField)
        [[(⟨0, 10, 0⟩ : Point ℤ), ⟨10, 0, 0⟩].getD i ⟨0, 0, 0⟩] ["VHM0"] =
        .ok ([("VHM0", [(1 : ℤ), 100])].map fun pr => (pr.1, [pr.2.getD i 0])) :=
  sample_alignment (Source.file flatField) [⟨0, 10, 0⟩, ⟨10, 0, 0⟩] ["VHM0"]
    [("VHM0", [1, 100])] rfl

/-- C4 counterexample: `rcNonSepField` has 2-D latitude and longitude and
fails the separability check, yet sampling does not fail with the
non-separable-grid error: its dimensions are named `r`/`c` rather than
`y`/`x`, so the code reaches the no-1-D-lat/lon error instead. -/
theorem nonseparable_other_dims_cex :
    ndimOf rcNonSepField "latitude" = 2 ∧ ndimOf rcNonSepField "longitude" = 2 ∧
    mathSeparable rcNonSepField = false ∧
    sample_vars_to_points (Source.file rcNonSepField) [⟨0, 0, 0⟩] ["VHM0"] =
      .error .no1dLatLon ∧
    sample_vars_to_points (Source.file rcNonSepField) [⟨0, 0, 0⟩] ["VHM0"] ≠
      .error .nonSeparable := by
  refine ⟨by decide, by decide, by decide, rfl, ?_⟩
  rw [show sample_vars_to_points (Source.file rcNonSepField) [⟨0, 0, 0⟩] ["VHM0"] =
    .error .no1dLatLon from rfl]
  simp

/-- C4 witness: `yxNonSepField` has 2-D latitude over dimensions `y`/`x`
and fails the separability check, and sampling rejects it with the
non-separable-grid error. -/
theorem nonseparable_rejected_witness :
    sample_vars_to_points (Source.file yxNonSepField) [] ["VHM0"] = .error .nonSeparable :=
  nonseparable_rejected yxNonSepField [] ["VHM0"] "latitude" "longitude"
    (by decide) (by decide) (by decide) (by decide) (by decide) (by decide)

/-- C9 witness: `rcSepField` is genuinely separable, yet because its
dimensions are not named `y`/`x` sampling still fails with the
no-1-D-lat/lon error. -/
theorem collapse_requires_yx_witness :
    mathSeparable rcSepField = true ∧
    sample_vars_to_points (Source.file rcSepField) [] ["VHM0"] = .error .no1dLatLon :=
  ⟨by decide,
   collapse_requires_yx rcSepField [] ["VHM0"] "latitude" "longitude"
     (by decide) (by decide) (by decide) (by decide) (by decide) (by decide)⟩

/-- C7 witness: `lonOnlyField` has no latitude candidate among its
variables or coordinates, and sampling fails with the missing-coordinate
error. -/
theorem missing_coord_error_witness :
    sample_vars_to_points (Source.file lonOnlyField) [] ["VHM0"] = .error .missingCoord :=
  missing_coord_error lonOnlyField [] ["VHM0"] (Or.inl (by decide))

/-- C6 counterexample: `bareField` contains none of the requested
variables, which the claim lists as a benign empty-result case, yet
sampling raises the missing-coordinate error instead of returning the
empty mapping, because the availability check runs only after coordinate
resolution. -/
theorem empty_benign_cex :
    List.filter (fun v => memVariables bareField v) ["VHM0"] = [] ∧
    sample_vars_to_points (Source.file bareField) [] ["VHM0"] = .error .missingCoord ∧
    sample_vars_to_points (Source.file bareField) [] ["VHM0"] ≠ .ok [] := by
  refine ⟨by decide, rfl, ?_⟩
  rw [show sample_vars_to_points (Source.file bareField) [] ["VHM0"] =
    .error .missingCoord from rfl]
  simp

/- Section 4: lemmas for the singleton-time-collapse claim. -/

theorem lookup_filter_ne {β : Type} (l : List (String × β)) (t k : String) (h : k ≠ t) :
    (l.filter (fun p => p.1 != t)).lookup k = l.lookup k := by
  induction l with
  | nil => rfl
  | cons a rest ih =>
    obtain ⟨k', v⟩ := a
    by_cases ht' : k' = t
    · subst ht'
      simp only [List.filter_cons, bne_self_eq_false, Bool.false_eq_true, if_false,
        List.lookup_cons]
      rw [ih]
      have hk : (k == k') = false := by simp [h]
      rw [hk]
    · have hf : ((k', v).1 != t) = true := by simp [ht']
      simp only [List.filter_cons, hf, if_true, List.lookup_cons]
      cases hk : k == k'
      · exact ih
      · rfl

theorem lookup_filter_self {β : Type} (l : List (String × β)) (t : String) :
    (l.filter (fun p => p.1 != t)).lookup t = none := by
  induction l with
  | nil => rfl
  | cons a rest ih =>
    obtain ⟨k', v⟩ := a
    by_cases ht' : k' = t
    · subst ht'
      simp only [List.filter_cons, bne_self_eq_false, Bool.false_eq_true, if_false]
      exact ih
    · have hf : ((k', v).1 != t) = true := by simp [ht']
      simp only [List.filter_cons, hf, if_true, List.lookup_cons]
      have hk : (t == k') = false := by
        simp only [beq_eq_false_iff_ne, ne_eq]
        exact fun hh => ht' hh.symm
      rw [hk]
      exact ih

theorem lookup_map_snd {β γ : Type} (l : List (String × β)) (f : β → γ) (k : String) :
    (l.map (fun p => (p.1, f p.2))).lookup k = (l.lookup k).map f := by
  induction l with
  | nil => rfl
  | cons a rest ih =>
    obtain ⟨k', v⟩ := a
    simp only [List.map_cons, List.lookup_cons]
    cases hk : k == k'
    · exact ih
    · rfl

theorem filter_map_snd {β γ : Type} (l : List (String × β)) (f : β → γ) (q : String → Bool) :
    (l.map (fun p => (p.1, f p.2))).filter (fun p => q p.1) =
    (l.filter (fun p => q p.1)).map (fun p => (p.1, f p.2)) := by
  induction l with
  | nil => rfl
  | cons a rest ih =>
    obtain ⟨k', v⟩ := a
    simp only [List.map_cons, List.filter_cons]
    cases hq : q k'
    · simpa using ih
    · simpa using ih

theorem filter_name_comm {β : Type} (l : List (String × β)) (a b : String) :
    (l.filter (fun p => p.1 != a)).filter (fun p => p.1 != b) =
    (l.filter (fun p => p.1 != b)).filter (fun p => p.1 != a) := by
  rw [List.filter_filter, List.filter_filter]
  exact List.filter_congr fun x _ => Bool.and_comm _ _

theorem find?_congr {l : List String} {p q : String → Bool} (h : ∀ a ∈ l, p a = q a) :
    l.find? p = l.find? q := by
  induction l with
  | nil => rfl
  | cons a rest ih =>
    simp only [List.find?]
    rw [h a (List.mem_cons_self a rest)]
    cases hq : q a
    · exact ih fun b hb => h b (List.mem_cons_of_mem a hb)
    · rfl

theorem option_or_map {β γ : Type} (o o' : Option β) (f : β → γ) :
    (o.map f).or (o'.map f) = (o.or o').map f := by
  cases o <;> rfl

theorem lookup_map_isel (l : List (String × Var α)) (t : String) (i : Nat) (k : String) :
    (l.map (fun p => (p.1, p.2.iselDim t i))).lookup k =
      (l.lookup k).map (fun v => v.iselDim t i) := by
  induction l with
  | nil => rfl
  | cons a rest ih =>
    obtain ⟨k', v⟩ := a
    simp only [List.map_cons, List.lookup_cons]
    cases hk : k == k'
    · exact ih
    · rfl

theorem filter_map_isel (l : List (String × Var α)) (t : String) (i : Nat) (q : String → Bool) :
    (l.map (fun p => (p.1, p.2.iselDim t i))).filter (fun p => q p.1) =
    (l.filter (fun p => q p.1)).map (fun p => (p.1, p.2.iselDim t i)) := by
  induction l with
  | nil => rfl
  | cons a rest ih =>
    obtain ⟨k', v⟩ := a
    simp only [List.map_cons, List.filter_cons]
    cases hq : q k'
    · simpa using ih
    · simpa using ih

theorem iselDim_not_mem (v : Var α) (t : String) (i : Nat) (h : t ∉ v.dims) :
    v.iselDim t i = v := by
  unfold Var.iselDim
  have : v.dims.findIdx? (fun x => x == t) = none := by
    simp only [List.findIdx?_eq_none_iff]
    intro x hx
    simp only [beq_eq_false_iff_ne, ne_eq]
    exact fun hxt => h (hxt ▸ hx)
  rw [this]

theorem removeTimeDim_dims (A : Dataset α) (t : String) :
    (removeTimeDim A t).dims = A.dims.filter (fun p => p.1 != t) := rfl

theorem removeTimeDim_coords (A : Dataset α) (t : String) :
    (removeTimeDim A t).coords =
      (A.coords.map (fun p => (p.1, p.2.iselDim t 0))).filter (fun p => p.1 != t) := rfl

theorem removeTimeDim_dataVars (A : Dataset α) (t : String) :
    (removeTimeDim A t).dataVars = A.dataVars.map (fun p => (p.1, p.2.iselDim t 0)) := rfl

theorem coords_lookup_rm (A : Dataset α) (t k : String) (h : k ≠ t) :
    (removeTimeDim A t).coords.lookup k = (A.coords.lookup k).map (fun v => v.iselDim t 0) := by
  rw [removeTimeDim_coords, lookup_filter_ne _ _ _ h, lookup_map_isel]

theorem dims_lookup_rm (A : Dataset α) (t k : String) (h : k ≠ t) :
    (removeTimeDim A t).dims.lookup k = A.dims.lookup k := by
  rw [removeTimeDim_dims, lookup_filter_ne _ _ _ h]

theorem dims_lookup_rm_self (A : Dataset α) (t : String) :
    (removeTimeDim A t).dims.lookup t = none := by
  rw [removeTimeDim_dims, lookup_filter_self]

theorem dataVars_lookup_rm (A : Dataset α) (t k : String) :
    (removeTimeDim A t).dataVars.lookup k = (A.dataVars.lookup k).map (fun v => v.iselDim t 0) := by
  rw [removeTimeDim_dataVars, lookup_map_isel]

theorem memVariables_rm (A : Dataset α) (t k : String) (h : k ≠ t) :
    memVariables (removeTimeDim A t) k = memVariables A k := by
  rw [memVariables, memVariables, coords_lookup_rm A t k h, dataVars_lookup_rm]
  cases A.coords.lookup k <;> cases A.dataVars.lookup k <;> rfl

theorem memCoords_rm (A : Dataset α) (t k : String) (h : k ≠ t) :
    memCoords (removeTimeDim A t) k = memCoords A k := by
  rw [memCoords, memCoords, coords_lookup_rm A t k h]
  cases A.coords.lookup k <;> rfl

theorem dsGet_rm (A : Dataset α) (t k : String) (h : k ≠ t) :
    dsGet (removeTimeDim A t) k = (dsGet A k).map (fun v => v.iselDim t 0) := by
  rw [dsGet, dsGet, coords_lookup_rm A t k h, dataVars_lookup_rm, option_or_map]

theorem ndimOf_rm (A : Dataset α) (t k : String) (h : k ≠ t)
    (hv : ∀ v, dsGet A k = some v → t ∉ v.dims) :
    ndimOf (removeTimeDim A t) k = ndimOf A k := by
  rw [ndimOf, ndimOf, dsGet_rm A t k h]
  cases hg : dsGet A k with
  | none => rfl
  | some v => simp [iselDim_not_mem v t 0 (hv v hg)]

theorem mem_dimNames_rm (A : Dataset α) (t k : String) (h : k ≠ t) :
    k ∈ dimNames (removeTimeDim A t) ↔ k ∈ dimNames A := by
  rw [dimNames, dimNames, removeTimeDim_dims]
  simp only [List.mem_map, List.mem_filter]
  constructor
  · rintro ⟨p, ⟨hp, _⟩, hk⟩
    exact ⟨p, hp, hk⟩
  · rintro ⟨p, hp, hk⟩
    refine ⟨p, ⟨hp, ?_⟩, hk⟩
    subst hk
    simp [h]

theorem contains_dimNames_rm (A : Dataset α) (t k : String) (h : k ≠ t) :
    (dimNames (removeTimeDim A t)).contains k = (dimNames A).contains k := by
  simp only [List.elem_eq_mem]
  exact decide_eq_decide.mpr (mem_dimNames_rm A t k h)

theorem setCoord_dims (C : Dataset α) (n : String) (v : Var α) :
    (setCoord C n v).dims = C.dims := rfl

theorem setCoord_dataVars (C : Dataset α) (n : String) (v : Var α) :
    (setCoord C n v).dataVars = C.dataVars := rfl

theorem coords_lookup_setCoord_self (C : Dataset α) (n : String) (v : Var α) :
    (setCoord C n v).coords.lookup n = some v := by
  simp [setCoord, List.lookup_cons]

theorem coords_lookup_setCoord_ne (C : Dataset α) (n : String) (v : Var α) (k : String)
    (h : k ≠ n) : (setCoord C n v).coords.lookup k = C.coords.lookup k := by
  simp only [setCoord, List.lookup_cons]
  have hk : (k == n) = false := by simp [h]
  rw [hk]
  exact lookup_filter_ne _ _ _ h

theorem dsGet_setCoord_self (C : Dataset α) (n : String) (v : Var α) :
    dsGet (setCoord C n v) n = some v := by
  rw [dsGet, coords_lookup_setCoord_self]
  rfl

theorem dsGet_setCoord_ne (C : Dataset α) (n : String) (v : Var α) (k : String) (h : k ≠ n) :
    dsGet (setCoord C n v) k = dsGet C k := by
  rw [dsGet, dsGet, coords_lookup_setCoord_ne C n v k h, setCoord_dataVars]

theorem ndimOf_setCoord_ne (C : Dataset α) (n : String) (v : Var α) (k : String) (h : k ≠ n) :
    ndimOf (setCoord C n v) k = ndimOf C k := by
  rw [ndimOf, ndimOf, dsGet_setCoord_ne C n v k h]

theorem iselAll_setCoord (C : Dataset α) (n : String) (v : Var α) (t : String) (i : Nat) :
    (setCoord C n v).iselAll t i = setCoord (C.iselAll t i) n (v.iselDim t i) := by
  simp only [Dataset.iselAll, setCoord, List.map_cons]
  congr 1
  exact congrArg (List.cons (n, v.iselDim t i)) (filter_map_isel C.coords t i (fun s => s != n)).symm

theorem dropCoord_setCoord (C : Dataset α) (n : String) (v : Var α) (t : String) (h : n ≠ t) :
    dropCoord (setCoord C n v) t = setCoord (dropCoord C t) n v := by
  simp only [dropCoord, setCoord, List.filter_cons]
  have hn : ((n, v).1 != t) = true := by simp [h]
  rw [hn]
  simp only [if_true]
  congr 1
  exact congrArg (List.cons (n, v)) (filter_name_comm C.coords n t)

theorem filter_map_permute (l : List (String × Var α)) (d : String) (perm : List Nat)
    (q : String → Bool) :
    (l.map (fun p => (p.1, p.2.permuteDim d perm))).filter (fun p => q p.1) =
    (l.filter (fun p => q p.1)).map (fun p => (p.1, p.2.permuteDim d perm)) := by
  induction l with
  | nil => rfl
  | cons a rest ih =>
    obtain ⟨k', v⟩ := a
    simp only [List.map_cons, List.filter_cons]
    cases hq : q k'
    · simpa using ih
    · simpa using ih

theorem dropCoord_dims (C : Dataset α) (t : String) : (dropCoord C t).dims = C.dims := rfl

theorem dropCoord_dataVars (C : Dataset α) (t : String) :
    (dropCoord C t).dataVars = C.dataVars := rfl

theorem coords_lookup_dropCoord_ne (C : Dataset α) (t k : String) (h : k ≠ t) :
    (dropCoord C t).coords.lookup k = C.coords.lookup k :=
  lookup_filter_ne _ _ _ h

theorem memVariables_dropCoord (C : Dataset α) (t k : String) (h : k ≠ t) :
    memVariables (dropCoord C t) k = memVariables C k := by
  rw [memVariables, memVariables, coords_lookup_dropCoord_ne C t k h, dropCoord_dataVars]

theorem dsGet_dropCoord_ne (C : Dataset α) (t k : String) (h : k ≠ t) :
    dsGet (dropCoord C t) k = dsGet C k := by
  rw [dsGet, dsGet, coords_lookup_dropCoord_ne C t k h, dropCoord_dataVars]

theorem coordValues_dropCoord (C : Dataset α) (t c : String) (h : c ≠ t) :
    coordValues (dropCoord C t) c = coordValues C c := by
  unfold coordValues
  rw [coords_lookup_dropCoord_ne C t c h]
  rfl

theorem coordDim_dropCoord (C : Dataset α) (t c : String) (h : c ≠ t) :
    coordDim (dropCoord C t) c = coordDim C c := by
  unfold coordDim
  rw [coords_lookup_dropCoord_ne C t c h]

theorem sortby_dropCoord (C : Dataset α) (t c : String) (h : c ≠ t) :
    Dataset.sortby (dropCoord C t) c = dropCoord (C.sortby c) t := by
  cases hc : C.coords.lookup c with
  | none =>
    simp only [Dataset.sortby, coords_lookup_dropCoord_ne C t c h, hc]
  | some cv =>
    simp only [Dataset.sortby, coords_lookup_dropCoord_ne C t c h, hc,
      coordValues_dropCoord C t c h]
    by_cases hd : (cv.dims.length == 1) = true
    · rw [if_pos hd, if_pos hd]
      simp only [dropCoord]
      congr 1
      exact (filter_map_permute C.coords (cv.dims.headD "")
        (argsort (coordValues C c)) (fun s => s != t)).symm
    · rw [if_neg hd, if_neg hd]

theorem sortAxes_dropCoord (C : Dataset α) (t latn lonn : String)
    (hl : latn ≠ t) (ho : lonn ≠ t) :
    sortAxes (dropCoord C t) latn lonn none = dropCoord (sortAxes C latn lonn none) t := by
  have e1 : ∀ D : Dataset α, sortAxes D latn lonn none = (D.sortby latn).sortby lonn :=
    fun D => rfl
  rw [e1, e1, sortby_dropCoord C t latn hl, sortby_dropCoord (C.sortby latn) t lonn ho]

theorem pointEval_dropCoord (C : Dataset α) (t latn lonn : String) (v : Var α) (p : Point α)
    (hl : latn ≠ t) (ho : lonn ≠ t) :
    pointEval (dropCoord C t) latn lonn none v p = pointEval C latn lonn none v p := by
  simp only [pointEval, coordValues_dropCoord C t latn hl, coordValues_dropCoord C t lonn ho,
    coordDim_dropCoord C t latn hl, coordDim_dropCoord C t lonn ho]

theorem finishSample_dropCoord (C : Dataset α) (t latn lonn : String)
    (pts : List (Point α)) (wanted : List String)
    (hw : t ∉ wanted) (hl : latn ≠ t) (ho : lonn ≠ t) :
    finishSample (dropCoord C t) latn lonn none pts wanted =
    finishSample C latn lonn none pts wanted := by
  have havail : wanted.filter (fun v => memVariables (dropCoord C t) v) =
      wanted.filter (fun v => memVariables C v) :=
    List.filter_congr fun v hv =>
      memVariables_dropCoord C t v (fun heq => hw (heq ▸ hv))
  unfold finishSample
  rw [havail]
  by_cases he : (wanted.filter (fun v => memVariables C v)).isEmpty = true
  · rw [if_pos he, if_pos he]
  · rw [if_neg he, if_neg he, sortAxes_dropCoord C t latn lonn hl ho]
    apply List.map_congr_left
    intro v hv
    have hvt : v ≠ t := fun heq => hw (heq ▸ List.mem_of_mem_filter hv)
    rw [dsGet_dropCoord_ne _ t v hvt]
    exact congrArg (Prod.mk v)
      (List.map_congr_left fun p _ => pointEval_dropCoord _ t latn lonn _ p hl ho)

theorem pick1dOK_rm (C : Dataset α) (t c : String) (hc : c ≠ t)
    (hv : ∀ v, dsGet C c = some v → t ∉ v.dims) :
    pick1dOK (removeTimeDim C t) c = pick1dOK C c := by
  rw [pick1dOK, pick1dOK, memCoords_rm C t c hc, dims_lookup_rm C t c hc, ndimOf_rm C t c hc hv]

theorem findTdim_rm_none (C : Dataset α) (t : String)
    (h3 : ∀ c ∈ timeCandidates, c ≠ t → C.dims.lookup c = none) :
    findTdim (removeTimeDim C t) = none := by
  apply List.find?_eq_none.mpr
  intro c hcmem
  by_cases hct : c = t
  · subst hct
    simp [dims_lookup_rm_self]
  · simp [dims_lookup_rm C t c hct, h3 c hcmem hct]

theorem findTdim_of (C : Dataset α) (t : String)
    (h4 : t ∈ timeCandidates)
    (hl : (C.dims.lookup t).isSome = true)
    (hnd : ndimOf C t = 1)
    (h3 : ∀ c ∈ timeCandidates, c ≠ t → C.dims.lookup c = none) :
    findTdim C = some t := by
  have htc : t = "time" ∨ t = "valid_time" ∨ t = "step" := by simpa [timeCandidates] using h4
  unfold findTdim timeCandidates
  rcases htc with rfl | rfl | rfl
  · simp [List.find?, hl, hnd]
  · have h0 : C.dims.lookup "time" = none :=
      h3 "time" (by simp [timeCandidates]) (by decide)
    simp [List.find?, h0, hl, hnd]
  · have h0 : C.dims.lookup "time" = none :=
      h3 "time" (by simp [timeCandidates]) (by decide)
    have h1' : C.dims.lookup "valid_time" = none :=
      h3 "valid_time" (by simp [timeCandidates]) (by decide)
    simp [List.find?, h0, h1', hl, hnd]

theorem timeHandle_singleton (C : Dataset α) (t : String)
    (h4 : t ∈ timeCandidates)
    (h1 : C.dims.lookup t = some 1)
    (h2 : ndimOf C t = 1)
    (h3 : ∀ c ∈ timeCandidates, c ≠ t → C.dims.lookup c = none) :
    timeHandle C = (C.iselAll t 0, none) := by
  unfold timeHandle
  rw [findTdim_of C t h4 (by simp [h1]) h2 h3]
  simp [dimSize, h1]

theorem timeHandle_rm (C : Dataset α) (t : String)
    (h3 : ∀ c ∈ timeCandidates, c ≠ t → C.dims.lookup c = none) :
    timeHandle (removeTimeDim C t) = (removeTimeDim C t, none) := by
  unfold timeHandle
  rw [findTdim_rm_none C t h3]

theorem shape2_rm (A : Dataset α) (t : String) (v : Var α) (hv : t ∉ v.dims) :
    shape2 (removeTimeDim A t) v = shape2 A v := by
  obtain ⟨dims, val⟩ := v
  simp only [shape2]
  cases dims with
  | nil => rfl
  | cons d0 rest =>
    cases rest with
    | nil => rfl
    | cons d1 rest2 =>
      cases rest2 with
      | cons e es => rfl
      | nil =>
        have h0 : d0 ≠ t := fun h => hv (by simp [h])
        have h1 : d1 ≠ t := fun h => hv (by simp [h])
        simp only [dimSize, dims_lookup_rm A t d0 h0, dims_lookup_rm A t d1 h1]

theorem sepLatOK_rm (A : Dataset α) (t : String) (v : Var α) (hv : t ∉ v.dims) :
    sepLatOK (removeTimeDim A t) v = sepLatOK A v := by
  unfold sepLatOK
  rw [shape2_rm A t v hv]

theorem sepLonOK_rm (A : Dataset α) (t : String) (v : Var α) (hv : t ∉ v.dims) :
    sepLonOK (removeTimeDim A t) v = sepLonOK A v := by
  unfold sepLonOK
  rw [shape2_rm A t v hv]

theorem collapse2d_rm (A : Dataset α) (t ln lo : String)
    (hln : ln ≠ t) (hlo : lo ≠ t)
    (hvlat : ∀ v, dsGet A ln = some v → t ∉ v.dims)
    (hvlon : ∀ v, dsGet A lo = some v → t ∉ v.dims)
    (hty : "y" ≠ t) (htx : "x" ≠ t) :
    collapse2d (removeTimeDim A t) ln lo =
      match collapse2d A ln lo with
      | .error e => .error e
      | .ok (A1, a, b) => .ok (removeTimeDim A1 t, a, b) := by
  have hget : (dsGet (removeTimeDim A t) ln).getD defaultVar = (dsGet A ln).getD defaultVar := by
    rw [dsGet_rm A t ln hln]
    cases hg : dsGet A ln with
    | none => rfl
    | some v => simp [iselDim_not_mem v t 0 (hvlat v hg)]
  have hgeto : (dsGet (removeTimeDim A t) lo).getD defaultVar = (dsGet A lo).getD defaultVar := by
    rw [dsGet_rm A t lo hlo]
    cases hg : dsGet A lo with
    | none => rfl
    | some v => simp [iselDim_not_mem v t 0 (hvlon v hg)]
  have hvl : t ∉ ((dsGet A ln).getD defaultVar).dims := by
    cases hg : dsGet A ln with
    | none => simp [defaultVar]
    | some v => simpa using hvlat v hg
  have hvo : t ∉ ((dsGet A lo).getD defaultVar).dims := by
    cases hg : dsGet A lo with
    | none => simp [defaultVar]
    | some v => simpa using hvlon v hg
  simp only [collapse2d]
  rw [ndimOf_rm A t ln hln hvlat, contains_dimNames_rm A t "y" hty,
    contains_dimNames_rm A t "x" htx, hget, hgeto,
    sepLatOK_rm A t _ hvl, sepLonOK_rm A t _ hvo]
  by_cases hg : (ndimOf A ln == 2 && (dimNames A).contains "y" && (dimNames A).contains "x") = true
  · rw [if_pos hg, if_pos hg]
    by_cases hs : (sepLatOK A ((dsGet A ln).getD defaultVar) &&
        sepLonOK A ((dsGet A lo).getD defaultVar)) = true
    · rw [if_pos hs, if_pos hs]
      have hY : t ∉ (firstColCoord ((dsGet A ln).getD defaultVar)).dims := by
        simp only [firstColCoord, List.mem_singleton]
        exact fun h => hty h.symm
      have hX : t ∉ (firstRowCoord ((dsGet A lo).getD defaultVar)).dims := by
        simp only [firstRowCoord, List.mem_singleton]
        exact fun h => htx h.symm
      have hcomm : removeTimeDim (setCoord (setCoord A "y"
            (firstColCoord ((dsGet A ln).getD defaultVar))) "x"
            (firstRowCoord ((dsGet A lo).getD defaultVar))) t
          = setCoord (setCoord (removeTimeDim A t) "y"
            (firstColCoord ((dsGet A ln).getD defaultVar))) "x"
            (firstRowCoord ((dsGet A lo).getD defaultVar)) := by
        unfold removeTimeDim
        rw [iselAll_setCoord, iselDim_not_mem _ t 0 hX,
          dropCoord_setCoord _ "x" _ t htx,
          iselAll_setCoord, iselDim_not_mem _ t 0 hY,
          dropCoord_setCoord _ "y" _ t hty]
      simp only [hcomm]
    · rw [if_neg hs, if_neg hs]
  · rw [if_neg hg, if_neg hg]

theorem collapse2d_cases (A : Dataset α) (ln lo : String) (A1 : Dataset α)
    (a b : Option String) (h : collapse2d A ln lo = .ok (A1, a, b)) :
    (A1 = A ∧ a = none ∧ b = none) ∨
    (a = some "y" ∧ b = some "x" ∧
      A1 = setCoord (setCoord A "y" (firstColCoord ((dsGet A ln).getD defaultVar))) "x"
             (firstRowCoord ((dsGet A lo).getD defaultVar))) := by
  simp only [collapse2d] at h
  by_cases hg : (ndimOf A ln == 2 && (dimNames A).contains "y" && (dimNames A).contains "x") = true
  · rw [if_pos hg] at h
    by_cases hs : (sepLatOK A ((dsGet A ln).getD defaultVar) &&
        sepLonOK A ((dsGet A lo).getD defaultVar)) = true
    · rw [if_pos hs] at h
      right
      have h' := Except.ok.inj h
      simp only [Prod.mk.injEq] at h'
      exact ⟨h'.2.1.symm, h'.2.2.symm, h'.1.symm⟩
    · rw [if_neg hs] at h
      exact absurd h (by simp)
  · rw [if_neg hg] at h
    left
    have h' := Except.ok.inj h
    simp only [Prod.mk.injEq] at h'
    exact ⟨h'.1.symm, h'.2.1.symm, h'.2.2.symm⟩

/-- Names that may serve as latitude or longitude axes anywhere in the
sampler: the 2-D candidates of lines 27-28 and the 1-D candidates of
lines 55-56. -/
def spatialNames : List String :=
  ["latitude", "lat", "nav_lat", "longitude", "lon", "nav_lon", "y", "x"]

theorem latCandidates_sub : ∀ n ∈ latCandidates, n ∈ spatialNames := by decide

theorem lonCandidates_sub : ∀ n ∈ lonCandidates, n ∈ spatialNames := by decide

theorem lat1dCandidates_sub : ∀ n ∈ lat1dCandidates, n ∈ spatialNames := by decide

theorem lon1dCandidates_sub : ∀ n ∈ lon1dCandidates, n ∈ spatialNames := by decide

theorem resolveAxes_some (ds : Dataset α) (ln lo : String)
    (hl : findName ds latCandidates = some ln) (ho : findName ds lonCandidates = some lo) :
    resolveAxes ds =
      match collapse2d ds ln lo with
      | .error e => .error e
      | .ok (ds1, latn0, lonn0) =>
        match (match latn0 with | some l => some l | none => pick1d ds1 lat1dCandidates),
              (match lonn0 with | some l => some l | none => pick1d ds1 lon1dCandidates) with
        | some latn, some lonn => .ok ((timeHandle ds1).1, latn, lonn, (timeHandle ds1).2)
        | _, _ => .error .no1dLatLon := by
  unfold resolveAxes
  rw [hl, ho]

theorem resolveAxes_noLat (ds : Dataset α) (hl : findName ds latCandidates = none) :
    resolveAxes ds = .error .missingCoord := by
  unfold resolveAxes
  rw [hl]

theorem resolveAxes_noLon (ds : Dataset α) (lo : String)
    (hl : findName ds latCandidates = some lo) (ho : findName ds lonCandidates = none) :
    resolveAxes ds = .error .missingCoord := by
  unfold resolveAxes
  rw [hl, ho]

/-- C5: a field whose (unique) time dimension has length exactly one is
sampled identically to the same field with that time dimension removed
entirely: the singleton axis is collapsed by selecting its single index
and no time selection is performed.  The hypotheses say that `t` is the
field's only time-candidate dimension, that it has size 1, that the
time array is 1-D, that `t` is not itself a requested variable, and that
the spatial coordinate arrays are not indexed by the time dimension. -/
theorem singleton_time_collapse (A : Dataset α) (t : String) (pts : List (Point α))
    (wanted : List String)
    (h1 : A.dims.lookup t = some 1)
    (h2 : ndimOf A t = 1)
    (h3 : ∀ c ∈ timeCandidates, c ≠ t → A.dims.lookup c = none)
    (h4 : t ∈ timeCandidates)
    (h5 : t ∉ wanted)
    (h6 : ∀ n ∈ spatialNames, ∀ v, dsGet A n = some v → t ∉ v.dims) :
    sample_vars_to_points (Source.file A) pts wanted =
    sample_vars_to_points (Source.file (removeTimeDim A t)) pts wanted := by
  have htc : t = "time" ∨ t = "valid_time" ∨ t = "step" := by simpa [timeCandidates] using h4
  have hne : ∀ n ∈ spatialNames, n ≠ t := by
    rcases htc with rfl | rfl | rfl <;> decide
  have hty : "y" ≠ t := hne "y" (by decide)
  have htx : "x" ≠ t := hne "x" (by decide)
  have hfl : findName (removeTimeDim A t) latCandidates = findName A latCandidates := by
    apply find?_congr
    intro n hn
    have hnt : n ≠ t := hne n (latCandidates_sub n hn)
    rw [memVariables_rm A t n hnt, memCoords_rm A t n hnt]
  have hfo : findName (removeTimeDim A t) lonCandidates = findName A lonCandidates := by
    apply find?_congr
    intro n hn
    have hnt : n ≠ t := hne n (lonCandidates_sub n hn)
    rw [memVariables_rm A t n hnt, memCoords_rm A t n hnt]
  simp only [sample_vars_to_points, sampleDs]
  cases hl : findName A latCandidates with
  | none =>
    rw [resolveAxes_noLat A hl, resolveAxes_noLat (removeTimeDim A t) (hfl.trans hl)]
  | some ln =>
  cases ho : findName A lonCandidates with
  | none =>
    rw [resolveAxes_noLon A ln hl ho,
        resolveAxes_noLon (removeTimeDim A t) ln (hfl.trans hl) (hfo.trans ho)]
  | some lo =>
  have hlnS : ln ∈ spatialNames := latCandidates_sub ln (List.mem_of_find?_eq_some hl)
  have hloS : lo ∈ spatialNames := lonCandidates_sub lo (List.mem_of_find?_eq_some ho)
  have hlnt : ln ≠ t := hne ln hlnS
  have hlot : lo ≠ t := hne lo hloS
  have hvlat : ∀ v, dsGet A ln = some v → t ∉ v.dims := h6 ln hlnS
  have hvlon : ∀ v, dsGet A lo = some v → t ∉ v.dims := h6 lo hloS
  rw [resolveAxes_some A ln lo hl ho,
      resolveAxes_some (removeTimeDim A t) ln lo (hfl.trans hl) (hfo.trans ho),
      collapse2d_rm A t ln lo hlnt hlot hvlat hvlon hty htx]
  cases hc : collapse2d A ln lo with
  | error e => rfl
  | ok val =>
  obtain ⟨A1, a, b⟩ := val
  rcases collapse2d_cases A ln lo A1 a b hc with ⟨hA1eq, rfl, rfl⟩ | ⟨rfl, rfl, hA1⟩
  · obtain rfl := hA1eq.symm
    have hpl : pick1d (removeTimeDim A t) lat1dCandidates = pick1d A lat1dCandidates := by
      apply find?_congr
      intro c hcm
      exact pick1dOK_rm A t c (hne c (lat1dCandidates_sub c hcm))
        (h6 c (lat1dCandidates_sub c hcm))
    have hpo : pick1d (removeTimeDim A t) lon1dCandidates = pick1d A lon1dCandidates := by
      apply find?_congr
      intro c hcm
      exact pick1dOK_rm A t c (hne c (lon1dCandidates_sub c hcm))
        (h6 c (lon1dCandidates_sub c hcm))
    simp only [hpl, hpo]
    cases hp1 : pick1d A lat1dCandidates with
    | none => rfl
    | some latn =>
    cases hp2 : pick1d A lon1dCandidates with
    | none => rfl
    | some lonn =>
    have hThA : timeHandle A = (A.iselAll t 0, none) := timeHandle_singleton A t h4 h1 h2 h3
    have hThR : timeHandle (removeTimeDim A t) = (removeTimeDim A t, none) :=
      timeHandle_rm A t h3
    simp only [hThA, hThR]
    have hlatnt : latn ≠ t :=
      hne latn (lat1dCandidates_sub latn (List.mem_of_find?_eq_some hp1))
    have hlonnt : lonn ≠ t :=
      hne lonn (lon1dCandidates_sub lonn (List.mem_of_find?_eq_some hp2))
    rw [show removeTimeDim A t = dropCoord (A.iselAll t 0) t from rfl,
        finishSample_dropCoord (A.iselAll t 0) t latn lonn pts wanted h5 hlatnt hlonnt]
  · subst hA1
    set S := setCoord (setCoord A "y" (firstColCoord ((dsGet A ln).getD defaultVar))) "x"
      (firstRowCoord ((dsGet A lo).getD defaultVar)) with hSdef
    have h1S : S.dims.lookup t = some 1 := by
      rw [hSdef, setCoord_dims, setCoord_dims]
      exact h1
    have h2S : ndimOf S t = 1 := by
      rw [hSdef, ndimOf_setCoord_ne _ "x" _ t (Ne.symm htx),
        ndimOf_setCoord_ne _ "y" _ t (Ne.symm hty)]
      exact h2
    have h3S : ∀ c ∈ timeCandidates, c ≠ t → S.dims.lookup c = none := by
      intro c hcm hct
      rw [hSdef, setCoord_dims, setCoord_dims]
      exact h3 c hcm hct
    have hThS : timeHandle S = (S.iselAll t 0, none) := timeHandle_singleton S t h4 h1S h2S h3S
    have hThRS : timeHandle (removeTimeDim S t) = (removeTimeDim S t, none) :=
      timeHandle_rm S t h3S
    simp only [hThS, hThRS]
    rw [show removeTimeDim S t = dropCoord (S.iselAll t 0) t from rfl,
        finishSample_dropCoord (S.iselAll t 0) t "y" "x" pts wanted h5 hty htx]

/-- Field with a singleton `time` dimension, 1-D lat/lon and one data
variable over (time, latitude, longitude). -/
def timeField : Dataset ℤ :=
  { dims := [("time", 1), ("latitude", 2), ("longitude", 2)],
    coords := [("time", axis1 "time" [0]),
               ("latitude", axis1 "latitude" [0, 10]),
               ("longitude", axis1 "longitude" [0, 10])],
    dataVars := [("VHM0", ⟨["time", "latitude", "longitude"],
      fun l => ((100 * l.getD 1 0 + l.getD 2 0 : Nat) : ℤ)⟩)] }

/-- C5 witness: sampling `timeField` (singleton time axis) agrees with
sampling the same field with the time dimension removed entirely. -/
theorem singleton_time_collapse_witness :
    sample_vars_to_points (Source.file timeField) [⟨0, 10, 0⟩] ["VHM0"] =
    sample_vars_to_points (Source.file (removeTimeDim timeField "time")) [⟨0, 10, 0⟩] ["VHM0"] :=
  singleton_time_collapse timeField "time" [⟨0, 10, 0⟩] ["VHM0"]
    (by decide) (by decide) (by decide) (by decide) (by decide)
    (by
      intro n hn v hv
      fin_cases hn
      · rw [show dsGet timeField "latitude" = some (axis1 "latitude" [0, 10]) from rfl] at hv
        obtain rfl := Option.some.inj hv
        decide
      · exact Option.noConfusion hv
      · exact Option.noConfusion hv
      · rw [show dsGet timeField "longitude" = some (axis1 "longitude" [0, 10]) from rfl] at hv
        obtain rfl := Option.some.inj hv
        decide
      · exact Option.noConfusion hv
      · exact Option.noConfusion hv
      · exact Option.noConfusion hv
      · exact Option.noConfusion hv)
